import Mathlib

/-!
Verification of the MediaEditor-SPA watermark composition and
coordinate-transform engine.

The repository ships two near-duplicate watermark-engine variants:

* the legacy anchor-based engine in `src/js/watermarkEngine.js`
  (functions embedded here without a suffix, or with `Legacy` where
  both variants define a function of the same name), and
* the newer transform-based engine embedded in `src/README.md`
  (functions embedded here with a `T` suffix, or sharing a name where
  only that variant defines it).

All JavaScript numbers are embedded as `ℚ` (the engine performs only
field arithmetic: +, -, *, / and comparisons).  Fields that JavaScript
leaves `undefined`/`null` are embedded as `Option`; JavaScript
truthiness tests on numbers test `≠ 0` and on strings test `≠ ""`.
A `TypeError` raised by a property access on `undefined` is modelled
explicitly on each code path where the source can raise one.
-/

/-- Rectangle bounds `{x, y, width, height}` a watermark is positioned in. -/
structure Bounds where
  x : ℚ
  y : ℚ
  width : ℚ
  height : ℚ
deriving DecidableEq

/-- A measured watermark size `{width, height}`. -/
structure WSize where
  width : ℚ
  height : ℚ
deriving DecidableEq

/-- `settings.position`: anchor preset plus pixel offsets, or `custom`
with normalized center coordinates. -/
structure PositionSettings where
  preset : String
  x : ℚ
  y : ℚ
deriving DecidableEq

/-- Result of `calculatePosition`. -/
structure PosResult where
  x : ℚ
  y : ℚ
  scaleFactor : ℚ
deriving DecidableEq

/-- `calculatePosition` of the transform-based engine
(`src/README.md`, engine copy, lines 290-375).  The position settings
argument is optional because the source destructures
`positionSettings || {}` (a missing object yields an undefined preset
and zero offsets, which falls into the `default` switch case). -/
def calculatePosition (positionSettings : Option PositionSettings) (bounds : Bounds)
    (watermarkSize : WSize) ( isPreview : Bool) (scaleFactor : ℚ) : PosResult :=
  let offsetX : ℚ := match positionSettings with | some p => p.x | none => 0
  let offsetY : ℚ := match positionSettings with | some p => p.y | none => 0
  let preset : String := match positionSettings with | some p => p.preset | none => ""
  let scaledWmWidth := watermarkSize.width * scaleFactor
  let scaledWmHeight := watermarkSize.height * scaleFactor
  let scaledOffsetX := offsetX * scaleFactor
  let scaledOffsetY := offsetY * scaleFactor
  if preset = "custom" then
    let nx := max 0 (min 1 (offsetX / 1000))
    let ny := max 0 (min 1 (offsetY / 1000))
    let centerX := bounds.x + bounds.width * nx
    let centerY := bounds.y + bounds.height * ny
    { x := centerX - scaledWmWidth / 2, y := centerY - scaledWmHeight / 2,
      scaleFactor := scaleFactor }
  else
    let baseX :=
      if preset = "top-left" then bounds.x + scaledWmWidth / 2
      else if preset = "top-center" then bounds.x + bounds.width / 2
      else if preset = "top-right" then bounds.x + bounds.width - scaledWmWidth / 2
      else if preset = "center-left" then bounds.x + scaledWmWidth / 2
      else if preset = "center" then bounds.x + bounds.width / 2
      else if preset = "center-right" then bounds.x + bounds.width - scaledWmWidth / 2
      else if preset = "bottom-left" then bounds.x + scaledWmWidth / 2
      else if preset = "bottom-center" then bounds.x + bounds.width / 2
      else if preset = "bottom-right" then bounds.x + bounds.width - scaledWmWidth / 2
      else bounds.x + bounds.width / 2
    let baseY :=
      if preset = "top-left" then bounds.y + scaledWmHeight / 2
      else if preset = "top-center" then bounds.y + scaledWmHeight / 2
      else if preset = "top-right" then bounds.y + scaledWmHeight / 2
      else if preset = "center-left" then bounds.y + bounds.height / 2
      else if preset = "center" then bounds.y + bounds.height / 2
      else if preset = "center-right" then bounds.y + bounds.height / 2
      else if preset = "bottom-left" then bounds.y + bounds.height - scaledWmHeight / 2
      else if preset = "bottom-center" then bounds.y + bounds.height - scaledWmHeight / 2
      else if preset = "bottom-right" then bounds.y + bounds.height - scaledWmHeight / 2
      else bounds.y + bounds.height / 2
    { x := baseX + scaledOffsetX, y := baseY + scaledOffsetY, scaleFactor := scaleFactor }

/-- `calculatePosition` of the legacy engine
(`src/js/watermarkEngine.js` lines 171-243).  It has no `custom` case:
unknown presets (including `custom`) fall into the `default` switch
case (bounds center) and the raw pixel offsets are then added.  A
missing settings object makes the destructuring throw, which the
`catch` turns into the bounds-center fallback with `scaleFactor: 1`. -/
def calculatePositionLegacy (positionSettings : Option PositionSettings) (bounds : Bounds)
    (watermarkSize : WSize) ( isPreview : Bool) (scaleFactor : ℚ) : PosResult :=
  match positionSettings with
  | none =>
      { x := bounds.x + bounds.width / 2, y := bounds.y + bounds.height / 2, scaleFactor := 1 }
  | some p =>
    let preset := p.preset
    let scaledOffsetX := p.x * scaleFactor
    let scaledOffsetY := p.y * scaleFactor
    let scaledWmWidth := watermarkSize.width * scaleFactor
    let scaledWmHeight := watermarkSize.height * scaleFactor
    let baseX :=
      if preset = "top-left" then bounds.x + scaledWmWidth / 2
      else if preset = "top-center" then bounds.x + bounds.width / 2
      else if preset = "top-right" then bounds.x + bounds.width - scaledWmWidth / 2
      else if preset = "center-left" then bounds.x + scaledWmWidth / 2
      else if preset = "center" then bounds.x + bounds.width / 2
      else if preset = "center-right" then bounds.x + bounds.width - scaledWmWidth / 2
      else if preset = "bottom-left" then bounds.x + scaledWmWidth / 2
      else if preset = "bottom-center" then bounds.x + bounds.width / 2
      else if preset = "bottom-right" then bounds.x + bounds.width - scaledWmWidth / 2
      else bounds.x + bounds.width / 2
    let baseY :=
      if preset = "top-left" then bounds.y + scaledWmHeight / 2
      else if preset = "top-center" then bounds.y + scaledWmHeight / 2
      else if preset = "top-right" then bounds.y + scaledWmHeight / 2
      else if preset = "center-left" then bounds.y + bounds.height / 2
      else if preset = "center" then bounds.y + bounds.height / 2
      else if preset = "center-right" then bounds.y + bounds.height / 2
      else if preset = "bottom-left" then bounds.y + bounds.height - scaledWmHeight / 2
      else if preset = "bottom-center" then bounds.y + bounds.height - scaledWmHeight / 2
      else if preset = "bottom-right" then bounds.y + bounds.height - scaledWmHeight / 2
      else bounds.y + bounds.height / 2
    { x := baseX + scaledOffsetX, y := baseY + scaledOffsetY, scaleFactor := scaleFactor }

/-- C1 counterexample: with bounds `{0,0,800,600}` and watermark size
`{200,100}`, `calculatePosition` (transform-based engine) at
`{preset:'custom', x:500, y:500}` returns `(300,250)` — the top-left
corner of a bounds-centered watermark — which differs from the
`(400,300)` returned for `{preset:'center', x:0, y:0}`; the legacy
engine returns `(900,800)` (center plus raw offsets).  Both refute the
claim that custom `(500,500)` resolves to the bounds' center. -/
theorem C1_counterexample :
    calculatePosition (some ⟨"custom", 500, 500⟩) ⟨0, 0, 800, 600⟩ ⟨200, 100⟩ false 1
      = ⟨300, 250, 1⟩ ∧
    calculatePosition (some ⟨"center", 0, 0⟩) ⟨0, 0, 800, 600⟩ ⟨200, 100⟩ false 1
      = ⟨400, 300, 1⟩ ∧
    calculatePosition (some ⟨"custom", 500, 500⟩) ⟨0, 0, 800, 600⟩ ⟨200, 100⟩ false 1
      ≠ calculatePosition (some ⟨"center", 0, 0⟩) ⟨0, 0, 800, 600⟩ ⟨200, 100⟩ false 1 ∧
    calculatePositionLegacy (some ⟨"custom", 500, 500⟩) ⟨0, 0, 800, 600⟩ ⟨200, 100⟩ false 1
      = ⟨900, 800, 1⟩ := by
  refine ⟨?_, ?_, ?_, ?_⟩ <;>
    · simp [calculatePosition, calculatePositionLegacy, PosResult.mk.injEq]
      try norm_num

/-- C1 (amended): in the transform-based engine, position resolution
with `{preset:'custom', x:500, y:500}` returns the **top-left corner**
of a watermark whose center is the bounds' center, i.e. the bounds
center minus half the scaled watermark size; it equals the
`{preset:'center', x:0, y:0}` result (which is a center point) only
after adding back half the scaled size.  Anchor presets return the
watermark's center point (shown for `center` and `top-left`); only the
`custom` branch converts to a top-left corner. -/
theorem C1_amended_custom_returns_top_left (b : Bounds) (s : WSize) (sf : ℚ) :
    calculatePosition (some ⟨"custom", 500, 500⟩) b s false sf
      = ⟨b.x + b.width / 2 - s.width * sf / 2, b.y + b.height / 2 - s.height * sf / 2, sf⟩ ∧
    calculatePosition (some ⟨"center", 0, 0⟩) b s false sf
      = ⟨b.x + b.width / 2, b.y + b.height / 2, sf⟩ ∧
    calculatePosition (some ⟨"top-left", 0, 0⟩) b s false sf
      = ⟨b.x + s.width * sf / 2, b.y + s.height * sf / 2, sf⟩ := by
  refine ⟨?_, ?_, ?_⟩ <;>
    · simp [calculatePosition, PosResult.mk.injEq]
      try norm_num [min_def, max_def]
      try constructor <;> try ring

/-- `settings.text`: content/typography of a text watermark.  Fields the
concrete claims leave unspecified are instantiated with inert values;
the validator reads only `content`, `size` and `opacity`. -/
structure TextSettings where
  content : String
  font : String
  size : ℚ
  color : String
  opacity : ℚ
  rotation : ℚ
deriving DecidableEq

/-- A decoded raster element with natural pixel dimensions. -/
structure ImgElem where
  width : ℚ
  height : ℚ
deriving DecidableEq

/-- `image.imageData`: the legacy engine stores an object whose
`element` is the decoded raster; the transform-based engine stores an
encoded source that a host `Image` decodes. -/
structure ImageData where
  element : Option ImgElem
deriving DecidableEq

/-- `settings.image`: raster watermark configuration. -/
structure ImageSettings where
  imageData : Option ImageData
  scale : ℚ
  opacity : ℚ
  rotation : ℚ
deriving DecidableEq

/-- `settings.output`: export encoding configuration. -/
structure OutputSettings where
  format : String
  quality : ℚ
deriving DecidableEq

/-- A watermark's geometric box, optionally carrying the preview-canvas
dimensions (`previewCanvasWidth`, `previewCanvasHeight`) it was
captured against, as the pair `preview`. -/
structure Transform where
  x : ℚ
  y : ℚ
  width : ℚ
  height : ℚ
  rotation : ℚ
  preview : Option (ℚ × ℚ)
deriving DecidableEq

/-- One watermark's full settings object.  Sub-objects the JavaScript
leaves `undefined` are `none`. -/
structure Settings where
  type : String
  text : Option TextSettings
  image : Option ImageSettings
  position : Option PositionSettings
  output : Option OutputSettings
  transform : Option Transform
deriving DecidableEq

/-- Result shape of `validateSettings`. -/
structure ValidationResult where
  isValid : Bool
  errors : List String
deriving DecidableEq

/-- Model of JavaScript `String.prototype.trim`: strips leading and
trailing whitespace (embedded over the character list so that concrete
instances evaluate inside the kernel). -/
def jsTrim (s : String) : String :=
  ⟨((s.data.dropWhile Char.isWhitespace).reverse.dropWhile Char.isWhitespace).reverse⟩

/-- Text-block violations of `validateSettings` (shared verbatim by
both engine variants). -/
def textRuleErrors (t : TextSettings) : List String :=
  (if t.content = "" ∨ jsTrim t.content = "" then ["Text content is required"] else []) ++
  (if t.size < 8 ∨ t.size > 500 then ["Text size must be between 8 and 500 pixels"] else []) ++
  (if t.opacity < 0 ∨ t.opacity > 100 then ["Text opacity must be between 0 and 100"] else [])

/-- Image-block violations of `validateSettings` (shared verbatim by
both engine variants). -/
def imageRuleErrors (im : ImageSettings) : List String :=
  (if im.imageData.isNone then ["Watermark image is required"] else []) ++
  (if im.scale < 1 ∨ im.scale > 500 then ["Image scale must be between 1 and 500 percent"] else []) ++
  (if im.opacity < 0 ∨ im.opacity > 100 then ["Image opacity must be between 0 and 100"] else [])

/-- The error accumulation of the legacy `validateSettings`
(`src/js/watermarkEngine.js` lines 446-502).  `none` models the
`TypeError` thrown by a property access on a missing sub-object, which
the surrounding `catch` converts to the fixed failure result;
`validPositions` has no `custom` entry in this variant. -/
def validateAttemptLegacy (s : Settings) : Option (List String) := do
  let typeErrors := if s.type ∈ ["text", "image", "combined"] then [] else ["Invalid watermark type"]
  let textErrors ← if s.type = "text" ∨ s.type = "combined" then
      match s.text with
      | none => none
      | some t => some (textRuleErrors t)
    else some []
  let imageErrors ← if s.type = "image" ∨ s.type = "combined" then
      match s.image with
      | none => none
      | some im => some (imageRuleErrors im)
    else some []
  let positionErrors ← match s.position with
    | none => none
    | some p =>
        some (if p.preset ∈ ["top-left", "top-center", "top-right",
                             "center-left", "center", "center-right",
                             "bottom-left", "bottom-center", "bottom-right"]
              then [] else ["Invalid position preset"])
  some (typeErrors ++ textErrors ++ imageErrors ++ positionErrors)

/-- Legacy `validateSettings`: collected errors, or the catch-all
result when a sub-object access threw. -/
def validateSettings (s : Settings) : ValidationResult :=
  match validateAttemptLegacy s with
  | some errors => { isValid := errors.isEmpty, errors := errors }
  | none => { isValid := false, errors := ["Failed to validate settings"] }

/-- The error accumulation of the transform-based engine's
`validateSettings` (`src/README.md`, engine copy, lines 611-679):
`validPositions` additionally contains `custom`, the preset error
message interpolates the offending preset, and a `custom` preset gets
its coordinates range-checked.  The source's `typeof` number check is
statically satisfied because every embedded coordinate is a number. -/
def validateAttemptT (s : Settings) : Option (List String) := do
  let typeErrors := if s.type ∈ ["text", "image", "combined"] then [] else ["Invalid watermark type"]
  let textErrors ← if s.type = "text" ∨ s.type = "combined" then
      match s.text with
      | none => none
      | some t => some (textRuleErrors t)
    else some []
  let imageErrors ← if s.type = "image" ∨ s.type = "combined" then
      match s.image with
      | none => none
      | some im => some (imageRuleErrors im)
    else some []
  let positionErrors ← match s.position with
    | none => none
    | some p =>
        let presetErrors :=
          if p.preset ∈ ["top-left", "top-center", "top-right",
                         "center-left", "center", "center-right",
                         "bottom-left", "bottom-center", "bottom-right",
                         "custom"]
          then [] else ["Invalid position preset: " ++ p.preset]
        let customErrors :=
          if p.preset = "custom" then
            if p.x < 0 ∨ p.x > 1000 ∨ p.y < 0 ∨ p.y > 1000
            then ["Custom position coordinates must be between 0 and 1000"] else []
          else []
        some (presetErrors ++ customErrors)
  some (typeErrors ++ textErrors ++ imageErrors ++ positionErrors)

/-- Transform-based engine `validateSettings`. -/
def validateSettingsT (s : Settings) : ValidationResult :=
  match validateAttemptT s with
  | some errors => { isValid := errors.isEmpty, errors := errors }
  | none => { isValid := false, errors := ["Failed to validate settings"] }

/-- The exact settings object of the C3 claim:
`{type:'text', text:{content:'', size:1000, opacity:150}}` — in
particular it has **no** `position` sub-object. -/
def c3Settings : Settings :=
  { type := "text",
    text := some { content := "", font := "", size := 1000, color := "", opacity := 150, rotation := 0 },
    image := none, position := none, output := none, transform := none }

/-- C3 counterexample: on the claim's exact input (which has no
`position` object) both engine variants hit the `TypeError` raised by
`settings.position.preset`, so the collected content/size/opacity
violations are discarded and the result carries the single catch-all
message `Failed to validate settings` — not "at least 3 distinct error
messages".  (`isValid:false` and "never throws" do hold.) -/
theorem C3_counterexample :
    validateSettings c3Settings = ⟨false, ["Failed to validate settings"]⟩ ∧
    validateSettingsT c3Settings = ⟨false, ["Failed to validate settings"]⟩ ∧
    ¬ 3 ≤ (validateSettings c3Settings).errors.length := by
  refine ⟨by decide, by decide, by decide⟩

/-- C3 (amended): `validateSettings` never throws and returns
`isValid:false` on the claim's input, but with the single catch-all
error `Failed to validate settings`, because the missing `position`
sub-object aborts collection; once a `position` object is present
(e.g. `{preset:'center'}`) the three violations — empty content, size
out of range, opacity out of range — are indeed collected
independently as 3 distinct messages. -/
theorem C3_amended_validator_collects_when_position_present :
    validateSettings
      { c3Settings with position := some { preset := "center", x := 0, y := 0 } }
      = ⟨false, ["Text content is required",
                 "Text size must be between 8 and 500 pixels",
                 "Text opacity must be between 0 and 100"]⟩ ∧
    (validateSettings
      { c3Settings with position := some { preset := "center", x := 0, y := 0 } }).errors.Nodup ∧
    validateSettings c3Settings = ⟨false, ["Failed to validate settings"]⟩ := by
  refine ⟨by decide, by decide, by decide⟩

/-- The settings object the batch path builds for every export:
`app.js getWatermarkSettingsFromTransform` always emits
`position: {preset:'custom', x, y}` with x,y in [0,1000]. -/
def c4Settings : Settings :=
  { type := "text",
    text := some { content := "Test", font := "Arial", size := 48, color := "#ffffff",
                   opacity := 80, rotation := 0 },
    image := none, position := some { preset := "custom", x := 500, y := 500 },
    output := none, transform := none }

/-- C4: the legacy `validateSettings` (`src/js/watermarkEngine.js`,
whose `validPositions` lacks `custom`) rejects the very settings shape
that `app.js getWatermarkSettingsFromTransform` produces for every
batch export (`preset:'custom'`, coordinates in [0,1000]), while the
transform-based engine's validator — matching the claim and the
repository's own engine copy in `src/README.md` — accepts it and
reports a preset error exactly for presets outside the 9 anchors plus
`custom`. -/
theorem C4_legacy_validator_rejects_custom :
    validateSettings c4Settings = ⟨false, ["Invalid position preset"]⟩ ∧
    validateSettingsT c4Settings = ⟨true, []⟩ ∧
    (∀ p : String,
      ("Invalid position preset: " ++ p) ∈
          (validateSettingsT { c4Settings with
            position := some { preset := p, x := 500, y := 500 } }).errors ↔
        p ∉ ["top-left", "top-center", "top-right",
             "center-left", "center", "center-right",
             "bottom-left", "bottom-center", "bottom-right", "custom"]) := by
  refine ⟨by decide, by decide, ?_⟩
  intro p
  by_cases hp : p ∈ ["top-left", "top-center", "top-right",
                     "center-left", "center", "center-right",
                     "bottom-left", "bottom-center", "bottom-right", "custom"]
  · fin_cases hp <;> decide
  · have hc : p ≠ "custom" := by
      intro h
      exact hp (by simp [h])
    simp [validateSettingsT, validateAttemptT, textRuleErrors, c4Settings, hp, hc]

/-- A symbolic entry of the context's current transformation matrix:
the arguments passed to `ctx.translate` / `ctx.rotate` (rotation is
recorded in degrees, as passed before the `π/180` conversion). -/
inductive TOp where
  | translate (dx dy : ℚ)
  | rotateDeg (deg : ℚ)
deriving DecidableEq

/-- The drawing surface's persistent paint state, the part saved and
restored by `ctx.save()` / `ctx.restore()`. -/
structure PaintState where
  globalAlpha : ℚ := 1
  transform : List TOp := []
  fillStyle : String := "#000000"
  strokeStyle : String := "#000000"
  lineWidth : ℚ := 1
  font : String := "10px sans-serif"
  textAlign : String := "start"
  textBaseline : String := "alphabetic"
  imageSmoothingEnabled : Bool := false
  imageSmoothingQuality : String := "low"
deriving DecidableEq

/-- A painting side effect actually emitted onto the surface,
recording the paint state in effect at emission time (the state fully
determines how the host surface realizes the op). -/
inductive PaintOp where
  | strokeText (content : String) (x y : ℚ) (state : PaintState)
  | fillText (content : String) (x y : ℚ) (state : PaintState)
  | drawImage (x y w h : ℚ) (state : PaintState)
deriving DecidableEq

/-- A 2D canvas context: current paint state, the save/restore stack,
and the log of emitted paint operations. -/
structure Ctx where
  paint : PaintState := {}
  stack : List PaintState := []
  ops : List PaintOp := []
deriving DecidableEq

def Ctx.save (c : Ctx) : Ctx := { c with stack := c.paint :: c.stack }

def Ctx.restore (c : Ctx) : Ctx :=
  match c.stack with
  | [] => c
  | p :: rest => { c with paint := p, stack := rest }

def Ctx.translate (c : Ctx) (dx dy : ℚ) : Ctx :=
  { c with paint := { c.paint with transform := c.paint.transform ++ [TOp.translate dx dy] } }

def Ctx.rotateDeg (c : Ctx) (deg : ℚ) : Ctx :=
  { c with paint := { c.paint with transform := c.paint.transform ++ [TOp.rotateDeg deg] } }

def Ctx.setGlobalAlpha (c : Ctx) (a : ℚ) : Ctx :=
  { c with paint := { c.paint with globalAlpha := a } }

def Ctx.setFont (c : Ctx) (f : String) : Ctx :=
  { c with paint := { c.paint with font := f } }

def Ctx.setFillStyle (c : Ctx) (s : String) : Ctx :=
  { c with paint := { c.paint with fillStyle := s } }

def Ctx.setStrokeStyle (c : Ctx) (s : String) : Ctx :=
  { c with paint := { c.paint with strokeStyle := s } }

def Ctx.setLineWidth (c : Ctx) (w : ℚ) : Ctx :=
  { c with paint := { c.paint with lineWidth := w } }

def Ctx.setTextAlign (c : Ctx) (a : String) : Ctx :=
  { c with paint := { c.paint with textAlign := a } }

def Ctx.setTextBaseline (c : Ctx) (b : String) : Ctx :=
  { c with paint := { c.paint with textBaseline := b } }

def Ctx.setSmoothing (c : Ctx) (e : Bool) : Ctx :=
  { c with paint := { c.paint with imageSmoothingEnabled := e } }

def Ctx.setSmoothingQuality (c : Ctx) (q : String) : Ctx :=
  { c with paint := { c.paint with imageSmoothingQuality := q } }

def Ctx.strokeText (c : Ctx) (s : String) (x y : ℚ) : Ctx :=
  { c with ops := c.ops ++ [PaintOp.strokeText s x y c.paint] }

def Ctx.fillText (c : Ctx) (s : String) (x y : ℚ) : Ctx :=
  { c with ops := c.ops ++ [PaintOp.fillText s x y c.paint] }

def Ctx.drawImage (c : Ctx) (x y w h : ℚ) : Ctx :=
  { c with ops := c.ops ++ [PaintOp.drawImage x y w h c.paint] }

/-- A single hexadecimal digit's value, `none` when the character is
not a hex digit (mirrors the `[a-f\d]` character class, which also
admits upper case through the `i` flag). -/
def hexDigitVal (ch : Char) : Option ℕ :=
  if "0".data.head! ≤ ch ∧ ch ≤ "9".data.head! then some (ch.toNat - 48)
  else if "a".data.head! ≤ ch ∧ ch ≤ "f".data.head! then some (ch.toNat - 87)
  else if "A".data.head! ≤ ch ∧ ch ≤ "F".data.head! then some (ch.toNat - 55)
  else none

/-- `hexToRgb` (`src/js/watermarkEngine.js` lines 305-316): parses
`#RRGGBB` or `RRGGBB`, returning `none` when the regex does not match. -/
def hexToRgb (hex : String) : Option (ℕ × ℕ × ℕ) :=
  let body := if hex.data.head? = some "#".data.head! then hex.data.drop 1 else hex.data
  match body with
  | [a, b, c, d, e, f] => do
      let r := 16 * (← hexDigitVal a) + (← hexDigitVal b)
      let g := 16 * (← hexDigitVal c) + (← hexDigitVal d)
      let bl := 16 * (← hexDigitVal e) + (← hexDigitVal f)
      some (r, g, bl)
  | _ => none

/-- `needsStroke` (`src/js/watermarkEngine.js` lines 269-284):
luminance outside (0.3, 0.7) needs a contrast stroke; unparsable
colors do not. -/
def needsStroke (color : String) : Bool :=
  match hexToRgb color with
  | none => false
  | some (r, g, b) =>
    let luminance : ℚ := ((299 / 1000) * r + (587 / 1000) * g + (114 / 1000) * b) / 255
    decide (luminance > 7 / 10 ∨ luminance < 3 / 10)

/-- `getContrastColor` (`src/js/watermarkEngine.js` lines 289-300). -/
def getContrastColor (color : String) : String :=
  match hexToRgb color with
  | none => "#000000"
  | some (r, g, b) =>
    let luminance : ℚ := ((299 / 1000) * r + (587 / 1000) * g + (114 / 1000) * b) / 255
    if luminance > 1 / 2 then "#000000" else "#FFFFFF"

/-- Result of one render call: the context as mutated so far, plus the
raised error message when the call threw. -/
abbrev RenderResult := Ctx × Option String

/-- Legacy `applyTextWatermark` (`src/js/watermarkEngine.js` lines
61-115).  `measure` abstracts the host `measureText` used by
`estimateTextWidth`.  A missing `settings.text` raises the `TypeError`
the source's `catch` re-wraps; empty or whitespace-only content
returns without painting. -/
def applyTextWatermark (measure : TextSettings → ℚ) (ctx : Ctx) (s : Settings)
    (bounds : Bounds) (scaleFactor : ℚ) : RenderResult :=
  match s.text with
  | none => (ctx, some "Failed to apply text watermark: TypeError")
  | some text =>
    if text.content = "" ∨ jsTrim text.content = "" then (ctx, none)
    else
      let scaledTextSize := text.size * scaleFactor
      let textWidth := measure { text with size := scaledTextSize }
      let pos := calculatePositionLegacy s.position bounds
        ⟨textWidth, scaledTextSize⟩ false scaleFactor
      let c1 := ((ctx.save).translate pos.x pos.y)
      let c2 := if text.rotation ≠ 0 then c1.rotateDeg text.rotation else c1
      let c3 := (((c2.setFont (toString scaledTextSize ++ "px " ++ text.font)).setTextAlign
        "center").setTextBaseline "middle").setGlobalAlpha (text.opacity / 100)
      let c4 :=
        if needsStroke text.color then
          (((c3.setStrokeStyle (getContrastColor text.color)).setLineWidth
            (max 1 (scaledTextSize / 20))).strokeText text.content 0 0)
        else c3
      let c5 := (c4.setFillStyle text.color).fillText text.content 0 0
      (c5.restore, none)

/-- Legacy `applyImageWatermark` (`src/js/watermarkEngine.js` lines
120-166).  A missing `settings.image` raises; missing `imageData` (or
a data object without a decoded `element`) silently paints nothing. -/
def applyImageWatermark (ctx : Ctx) (s : Settings) (bounds : Bounds)
    (scaleFactor : ℚ) : RenderResult :=
  match s.image with
  | none => (ctx, some "Failed to apply image watermark: TypeError")
  | some image =>
    match image.imageData with
    | none => (ctx, none)
    | some idata =>
      match idata.element with
      | none => (ctx, none)
      | some img =>
        let scale := image.scale / 100 * scaleFactor
        let scaledWidth := img.width * scale
        let scaledHeight := img.height * scale
        let pos := calculatePositionLegacy s.position bounds
          ⟨scaledWidth, scaledHeight⟩ false scaleFactor
        let c1 := ((ctx.save).translate pos.x pos.y)
        let c2 := if image.rotation ≠ 0 then c1.rotateDeg image.rotation else c1
        let c3 := (c2.setGlobalAlpha (image.opacity / 100)).drawImage
          (-scaledWidth / 2) (-scaledHeight / 2) scaledWidth scaledHeight
        (c3.restore, none)

/-- Legacy `applyWatermark` (`src/js/watermarkEngine.js` lines 16-43):
saves the context, dispatches on `settings.type` (text / image /
combined / throw on unknown), restores only on the success path; the
`catch` re-wraps and rethrows, so an error leaves the saved frame on
the stack. -/
def applyWatermark (measure : TextSettings → ℚ) (ctx : Ctx) (s : Settings)
    (bounds : Bounds) (scaleFactor : ℚ) : RenderResult :=
  let c1 := ctx.save
  if s.type = "text" then
    match applyTextWatermark measure c1 s bounds scaleFactor with
    | (c2, none) => (c2.restore, none)
    | (c2, some e) => (c2, some ("Failed to apply watermark: " ++ e))
  else if s.type = "image" then
    match applyImageWatermark c1 s bounds scaleFactor with
    | (c2, none) => (c2.restore, none)
    | (c2, some e) => (c2, some ("Failed to apply watermark: " ++ e))
  else if s.type = "combined" then
    match applyTextWatermark measure c1 s bounds scaleFactor with
    | (c2, some e) => (c2, some ("Failed to apply watermark: " ++ e))
    | (c2, none) =>
      match applyImageWatermark c2 s bounds scaleFactor with
      | (c3, none) => (c3.restore, none)
      | (c3, some e) => (c3, some ("Failed to apply watermark: " ++ e))
  else
    (c1, some ("Failed to apply watermark: Unknown watermark type: " ++ s.type))

/-- Legacy `applyWatermarks` (`src/js/watermarkEngine.js` lines
52-56): a plain sequential loop with no per-watermark error handling —
an exception propagates and the remaining entries are never visited. -/
def applyWatermarks (measure : TextSettings → ℚ) (ctx : Ctx) (watermarks : List Settings)
    (bounds : Bounds) (scaleFactor : ℚ) : RenderResult :=
  match watermarks with
  | [] => (ctx, none)
  | wm :: rest =>
    match applyWatermark measure ctx wm bounds scaleFactor with
    | (c, some e) => (c, some e)
    | (c, none) => applyWatermarks measure c rest bounds scaleFactor

/-- The preview-to-target rescaling inlined as `actualTransform` in the
transform-based engine's `applyTextWatermark` and `applyImageWatermark`
(`src/README.md`, engine copy, lines 158-173 and 218-233): when the
transform carries truthy `previewCanvasWidth/Height`, each spatial
field is multiplied by the per-axis ratio of target bounds to preview
size; rotation is copied; otherwise the transform is used unchanged. -/
def scaleTransform (t : Transform) (bounds : Bounds) : Transform :=
  match t.preview with
  | some (pw, ph) =>
    if pw ≠ 0 ∧ ph ≠ 0 then
      let scaleX := bounds.width / pw
      let scaleY := bounds.height / ph
      { x := t.x * scaleX, y := t.y * scaleY, width := t.width * scaleX,
        height := t.height * scaleY, rotation := t.rotation, preview := none }
    else t
  | none => t

/-- Transform-based `applyTextWatermark` (`src/README.md`, engine
copy, lines 151-198).  Its `catch` only logs — errors are swallowed,
so a `TypeError` (missing `text` after the save, or missing
`transform` after the font/style assignments) leaves the context
mid-mutation with the saved frame leaked, yet reports success. -/
def applyTextWatermarkT (ctx : Ctx) (s : Settings) (bounds : Bounds)
    (scaleFactor : ℚ) : RenderResult :=
  let c0 := ctx.save
  match s.text with
  | none => (c0, none)
  | some text =>
    let fontSize := text.size * scaleFactor
    let c1 := (((((c0.setFont
      (toString fontSize ++ "px \"" ++ text.font ++ "\"")).setFillStyle
      text.color).setGlobalAlpha (text.opacity / 100)).setTextAlign
      "center").setTextBaseline "middle")
    match s.transform with
    | none => (c1, none)
    | some t =>
      let actualTransform := scaleTransform t bounds
      let centerX := actualTransform.x + actualTransform.width / 2
      let centerY := actualTransform.y + actualTransform.height / 2
      let c2 := ((c1.translate centerX centerY).rotateDeg actualTransform.rotation).setSmoothing
        true
      ((c2.fillText text.content 0 0).restore, none)

/-- Transform-based `applyImageWatermark` (`src/README.md`, engine
copy, lines 203-285).  `decode` abstracts the awaited host `Image`
decode of the stored data.  A missing `settings.image` rethrows;
missing `imageData` silently paints nothing; a present transform takes
the center-based path, otherwise the legacy anchor fallback runs with
this engine's `calculatePosition`. -/
def applyImageWatermarkT (decode : ImageData → ImgElem) (ctx : Ctx) (s : Settings)
    (bounds : Bounds) (scaleFactor : ℚ) : RenderResult :=
  match s.image with
  | none => (ctx, some "TypeError")
  | some image =>
    match image.imageData with
    | none => (ctx, none)
    | some idata =>
      let img := decode idata
      let c0 := ctx.save
      match s.transform with
      | some t =>
        let actualTransform := scaleTransform t bounds
        let centerX := actualTransform.x + actualTransform.width / 2
        let centerY := actualTransform.y + actualTransform.height / 2
        let c1 := ((((c0.translate centerX centerY).rotateDeg
          actualTransform.rotation).setGlobalAlpha (image.opacity / 100)).setSmoothing
          true).setSmoothingQuality "high"
        let c2 := c1.drawImage (-actualTransform.width / 2) (-actualTransform.height / 2)
          actualTransform.width actualTransform.height
        (c2.restore, none)
      | none =>
        let scale := (if image.scale = 0 then 100 else image.scale) / 100 * scaleFactor
        let watermarkWidth := img.width * scale
        let watermarkHeight := img.height * scale
        let pos := calculatePosition s.position bounds
          ⟨watermarkWidth, watermarkHeight⟩ false scaleFactor
        let c1 :=
          if image.rotation ≠ 0 then
            let centerX := pos.x + watermarkWidth / 2
            let centerY := pos.y + watermarkHeight / 2
            ((c0.translate centerX centerY).rotateDeg image.rotation).translate
              (-centerX) (-centerY)
          else c0
        let c2 := ((c1.setGlobalAlpha (image.opacity / 100)).setSmoothing
          true).setSmoothingQuality "high"
        let c3 := c2.drawImage pos.x pos.y watermarkWidth watermarkHeight
        (c3.restore, none)

/-- Transform-based `applyWatermark` (`src/README.md`, engine copy,
lines 106-133): same save/dispatch/restore shape as the legacy one. -/
def applyWatermarkT (decode : ImageData → ImgElem) (ctx : Ctx) (s : Settings)
    (bounds : Bounds) (scaleFactor : ℚ) : RenderResult :=
  let c1 := ctx.save
  if s.type = "text" then
    match applyTextWatermarkT c1 s bounds scaleFactor with
    | (c2, none) => (c2.restore, none)
    | (c2, some e) => (c2, some ("Failed to apply watermark: " ++ e))
  else if s.type = "image" then
    match applyImageWatermarkT decode c1 s bounds scaleFactor with
    | (c2, none) => (c2.restore, none)
    | (c2, some e) => (c2, some ("Failed to apply watermark: " ++ e))
  else if s.type = "combined" then
    match applyTextWatermarkT c1 s bounds scaleFactor with
    | (c2, some e) => (c2, some ("Failed to apply watermark: " ++ e))
    | (c2, none) =>
      match applyImageWatermarkT decode c2 s bounds scaleFactor with
      | (c3, none) => (c3.restore, none)
      | (c3, some e) => (c3, some ("Failed to apply watermark: " ++ e))
  else
    (c1, some ("Failed to apply watermark: Unknown watermark type: " ++ s.type))

/-- The sequential multi-watermark loop of the transform-based engine
(`src/README.md`, engine copy, lines 142-146 and 580-584): no
per-watermark error isolation. -/
def applyWatermarksT (decode : ImageData → ImgElem) (ctx : Ctx)
    (watermarks : List Settings) (bounds : Bounds) (scaleFactor : ℚ) : RenderResult :=
  match watermarks with
  | [] => (ctx, none)
  | wm :: rest =>
    match applyWatermarkT decode ctx wm bounds scaleFactor with
    | (c, some e) => (c, some e)
    | (c, none) => applyWatermarksT decode c rest bounds scaleFactor

/-- Result record of a full-resolution export (`dataUrl` encoding is
abstracted to the chosen MIME `format` plus the painter's op log). -/
structure GeneratedImage where
  width : ℚ
  height : ℚ
  format : String
  ops : List PaintOp
deriving DecidableEq

/-- Legacy `generateWatermarkedImage` (`src/js/watermarkEngine.js`
lines 321-362): draws the source, applies the single watermark at
scale factor 1, then encodes as `image/jpeg` exactly when
`output.format === 'jpeg'` and as `image/png` otherwise. -/
def generateWatermarkedImage (measure : TextSettings → ℚ) (img : ImgElem)
    (settings : Settings) : Except String GeneratedImage :=
  let ctx1 := (({} : Ctx).drawImage 0 0 img.width img.height)
  let bounds : Bounds := ⟨0, 0, img.width, img.height⟩
  match applyWatermark measure ctx1 settings bounds 1 with
  | (_, some e) => Except.error ("Failed to generate watermarked image: " ++ e)
  | (c, none) =>
    match settings.output with
    | none => Except.error "Failed to generate watermarked image: TypeError"
    | some o =>
      let format := if o.format = "jpeg" then "image/jpeg" else "image/png"
      Except.ok { width := img.width, height := img.height, format := format, ops := c.ops }

/-- Transform-based `generateWatermarkedImageMultiple`
(`src/README.md`, engine copy, lines 566-606): applies every watermark
in order at scale factor 1, then encodes using the first watermark's
output settings with the three-way mapping
jpeg → `image/jpeg`, webp → `image/webp`, otherwise `image/png`. -/
def generateWatermarkedImageMultiple (decode : ImageData → ImgElem) (img : ImgElem)
    (watermarks : List Settings) : Except String GeneratedImage :=
  let ctx1 := (({} : Ctx).drawImage 0 0 img.width img.height)
  let bounds : Bounds := ⟨0, 0, img.width, img.height⟩
  match applyWatermarksT decode ctx1 watermarks bounds 1 with
  | (_, some e) => Except.error ("Failed to generate watermarked image: " ++ e)
  | (c, none) =>
    let out := match watermarks.head? with
      | some first =>
        match first.output with
        | some o => if o.format = "" then "png" else o.format
        | none => "png"
      | none => "png"
    let format :=
      if out = "jpeg" then "image/jpeg"
      else if out = "webp" then "image/webp"
      else "image/png"
    Except.ok { width := img.width, height := img.height, format := format, ops := c.ops }

/-- C2: a transform carrying preview-canvas dimensions is rescaled for
rendering by the per-axis ratios `scaleX = bounds.width / previewCanvasWidth`,
`scaleY = bounds.height / previewCanvasHeight` applied to x, y, width
and height, with rotation copied unchanged; a transform without
preview dimensions is used unchanged for any target bounds; and the
transform-based text renderer paints with exactly this rescaled
transform (one centered `fillText` whose recorded transformation is
the translate to the rescaled box's center followed by the rotation). -/
theorem C2_transform_scaling :
    (∀ (t : Transform) (bounds : Bounds) (pw ph : ℚ),
      t.preview = some (pw, ph) → pw ≠ 0 → ph ≠ 0 →
      scaleTransform t bounds =
        ⟨t.x * (bounds.width / pw), t.y * (bounds.height / ph),
         t.width * (bounds.width / pw), t.height * (bounds.height / ph),
         t.rotation, none⟩) ∧
    (∀ (t : Transform) (bounds : Bounds), t.preview = none →
      scaleTransform t bounds = t) ∧
    (∀ (ctx : Ctx) (s : Settings) (text : TextSettings) (t : Transform)
       (bounds : Bounds) (sf : ℚ),
      s.text = some text → s.transform = some t →
      (applyTextWatermarkT ctx s bounds sf).1.ops =
        ctx.ops ++ [PaintOp.fillText text.content 0 0
          { ctx.paint with
              font := toString (text.size * sf) ++ "px \"" ++ text.font ++ "\"",
              fillStyle := text.color,
              globalAlpha := text.opacity / 100,
              textAlign := "center",
              textBaseline := "middle",
              imageSmoothingEnabled := true,
              transform := ctx.paint.transform ++
                [TOp.translate
                    ((scaleTransform t bounds).x + (scaleTransform t bounds).width / 2)
                    ((scaleTransform t bounds).y + (scaleTransform t bounds).height / 2),
                 TOp.rotateDeg (scaleTransform t bounds).rotation] }]) := by
  refine ⟨?_, ?_, ?_⟩
  · intro t bounds pw ph hp hw hh
    simp [scaleTransform, hp, hw, hh]
  · intro t bounds hp
    simp [scaleTransform, hp]
  · intro ctx s text t bounds sf ht htr
    simp [applyTextWatermarkT, ht, htr, Ctx.save, Ctx.setFont, Ctx.setFillStyle,
      Ctx.setGlobalAlpha, Ctx.setTextAlign, Ctx.setTextBaseline, Ctx.translate,
      Ctx.rotateDeg, Ctx.setSmoothing, Ctx.fillText, Ctx.restore]

/-- Witness for C2 at the spec's concrete instance: transform
`{x:100, y:100, width:200, height:60, rotation:15,
previewCanvasWidth:800, previewCanvasHeight:600}` against a 1600×1200
target doubles every spatial field and keeps rotation 15; a transform
without preview dimensions passes through unchanged. -/
theorem C2_transform_scaling_witness :
    scaleTransform ⟨100, 100, 200, 60, 15, some (800, 600)⟩ ⟨0, 0, 1600, 1200⟩
      = ⟨200, 200, 400, 120, 15, none⟩ ∧
    scaleTransform ⟨100, 100, 200, 60, 15, none⟩ ⟨0, 0, 1600, 1200⟩
      = ⟨100, 100, 200, 60, 15, none⟩ := by
  constructor
  · have h := C2_transform_scaling.1 ⟨100, 100, 200, 60, 15, some (800, 600)⟩
      ⟨0, 0, 1600, 1200⟩ 800 600 rfl (by decide) (by decide)
    rw [h]
    norm_num [Transform.mk.injEq]
  · exact C2_transform_scaling.2.1 ⟨100, 100, 200, 60, 15, none⟩ ⟨0, 0, 1600, 1200⟩ rfl

/-- The deterministic fallback of `estimateTextWidth`
(`src/js/watermarkEngine.js` line 262): `size * content.length * 0.6`,
used as a concrete instantiation of the abstract host text measure. -/
def estimateTextWidthFallback (t : TextSettings) : ℚ :=
  t.size * t.content.length * (3 / 5)

/-- The legacy text renderer is internally save/restore balanced: its
errors are raised before its own `save`, and its success path pops
what it pushed, so paint state and stack come back unchanged and only
paint ops are appended. -/
theorem applyTextWatermark_frame (measure : TextSettings → ℚ) (ctx : Ctx) (s : Settings)
    (bounds : Bounds) (sf : ℚ) :
    (applyTextWatermark measure ctx s bounds sf).1.paint = ctx.paint ∧
    (applyTextWatermark measure ctx s bounds sf).1.stack = ctx.stack ∧
    ∃ l, (applyTextWatermark measure ctx s bounds sf).1.ops = ctx.ops ++ l := by
  unfold applyTextWatermark
  cases htext : s.text with
  | none => simp
  | some text =>
    by_cases hblank : text.content = "" ∨ jsTrim text.content = ""
    · simp [hblank]
    · simp only [hblank, if_false]
      split_ifs <;>
        simp [Ctx.save, Ctx.translate, Ctx.rotateDeg, Ctx.setFont, Ctx.setTextAlign,
          Ctx.setTextBaseline, Ctx.setGlobalAlpha, Ctx.setStrokeStyle, Ctx.setLineWidth,
          Ctx.strokeText, Ctx.setFillStyle, Ctx.fillText, Ctx.restore]

/-- The legacy image renderer is likewise internally balanced. -/
theorem applyImageWatermark_frame (ctx : Ctx) (s : Settings) (bounds : Bounds) (sf : ℚ) :
    (applyImageWatermark ctx s bounds sf).1.paint = ctx.paint ∧
    (applyImageWatermark ctx s bounds sf).1.stack = ctx.stack ∧
    ∃ l, (applyImageWatermark ctx s bounds sf).1.ops = ctx.ops ++ l := by
  unfold applyImageWatermark
  cases himg : s.image with
  | none => simp
  | some image =>
    cases hdata : image.imageData with
    | none => simp [hdata]
    | some idata =>
      cases helem : idata.element with
      | none => simp [hdata, helem]
      | some img =>
        simp only [hdata, helem]
        split_ifs <;>
          simp [Ctx.save, Ctx.translate, Ctx.rotateDeg, Ctx.setGlobalAlpha,
            Ctx.drawImage, Ctx.restore]

/-- C6 counterexample: `applyWatermark` on an unknown `settings.type`
raises, and the raised path leaves the save/restore stack one frame
deeper than before the call (the `catch` rethrows without restoring
the `save` made on entry), so the surface is *not* returned with its
previous stack depth on every error. -/
theorem C6_counterexample :
    (applyWatermark estimateTextWidthFallback {}
      ⟨"bogus", none, none, none, none, none⟩ ⟨0, 0, 100, 100⟩ 1).2.isSome = true ∧
    (applyWatermark estimateTextWidthFallback {}
      ⟨"bogus", none, none, none, none, none⟩ ⟨0, 0, 100, 100⟩ 1).1.stack.length = 1 ∧
    ({} : Ctx).stack.length = 0 := by
  refine ⟨by decide, by decide, by decide⟩

/-- C6 (amended): on a *successful* return, `applyWatermark` leaves
the persistent paint state (global alpha, transformation, stroke/fill
style, …) and the save/restore stack exactly as before the call,
having only appended paint ops; on an *error* return the paint state
values are still the pre-call ones but exactly one saved frame is
leaked, so the stack is one deeper than before. -/
theorem C6_amended_save_restore_discipline (measure : TextSettings → ℚ) (ctx : Ctx)
    (s : Settings) (bounds : Bounds) (sf : ℚ) :
    (applyWatermark measure ctx s bounds sf).1.paint = ctx.paint ∧
    (applyWatermark measure ctx s bounds sf).1.stack =
      (if (applyWatermark measure ctx s bounds sf).2.isSome
       then ctx.paint :: ctx.stack else ctx.stack) ∧
    ∃ l, (applyWatermark measure ctx s bounds sf).1.ops = ctx.ops ++ l := by
  unfold applyWatermark
  by_cases h1 : s.type = "text"
  case pos =>
    simp +decide only [h1, if_true, if_false]
    obtain ⟨hpT, hsT, lT, hoT⟩ := applyTextWatermark_frame measure ctx.save s bounds sf
    rcases hres : applyTextWatermark measure ctx.save s bounds sf with ⟨c2, e⟩
    rw [hres] at hpT hsT hoT
    simp only [Ctx.save] at hpT hsT hoT
    cases e with
    | some e =>
      simp only [hres]
      exact ⟨hpT, by simp [hsT], lT, hoT⟩
    | none =>
      have hrestore : c2.restore = { c2 with paint := ctx.paint, stack := ctx.stack } := by
        unfold Ctx.restore
        rw [hsT]
      simp only [hres, hrestore]
      simp [hoT]
  by_cases h2 : s.type = "image"
  case pos =>
    simp +decide only [h1, h2, if_true, if_false]
    obtain ⟨hpI, hsI, lI, hoI⟩ := applyImageWatermark_frame ctx.save s bounds sf
    rcases hres : applyImageWatermark ctx.save s bounds sf with ⟨c2, e⟩
    rw [hres] at hpI hsI hoI
    simp only [Ctx.save] at hpI hsI hoI
    cases e with
    | some e =>
      simp only [hres]
      exact ⟨hpI, by simp [hsI], lI, hoI⟩
    | none =>
      have hrestore : c2.restore = { c2 with paint := ctx.paint, stack := ctx.stack } := by
        unfold Ctx.restore
        rw [hsI]
      simp only [hres, hrestore]
      simp [hoI]
  by_cases h3 : s.type = "combined"
  case neg =>
    simp +decide only [h1, h2, h3, if_true, if_false]
    simp [Ctx.save]
  case pos =>
    simp +decide only [h1, h2, h3, if_true, if_false]
    obtain ⟨hpT, hsT, lT, hoT⟩ := applyTextWatermark_frame measure ctx.save s bounds sf
    rcases hres : applyTextWatermark measure ctx.save s bounds sf with ⟨c2, e⟩
    rw [hres] at hpT hsT hoT
    simp only [Ctx.save] at hpT hsT hoT
    cases e with
    | some e =>
      simp only [hres]
      exact ⟨hpT, by simp [hsT], lT, hoT⟩
    | none =>
      obtain ⟨hpI, hsI, lI, hoI⟩ := applyImageWatermark_frame c2 s bounds sf
      rcases hres2 : applyImageWatermark c2 s bounds sf with ⟨c3, e2⟩
      rw [hres2] at hpI hsI hoI
      dsimp only at hpI hsI hoI
      cases e2 with
      | some e2 =>
        simp only [hres, hres2]
        refine ⟨hpI.trans hpT, by simp [hsI.trans hsT], lT ++ lI, ?_⟩
        rw [hoI, hoT, List.append_assoc]
      | none =>
        have hrestore : c3.restore = { c3 with paint := ctx.paint, stack := ctx.stack } := by
          unfold Ctx.restore
          rw [hsI.trans hsT]
        simp only [hres, hres2, hrestore]
        simp [hoI, hoT]

/-- Batch settings: `processImage` accepts either one settings object
or an array of them (`Array.isArray` dispatch). -/
inductive BatchSettings where
  | single (s : Settings)
  | multiple (l : List Settings)
deriving DecidableEq

/-- A queued source image: name plus (possibly missing) decoded data. -/
structure SourceImage where
  name : String
  imageData : Option ImgElem
deriving DecidableEq

/-- One entry of the processing queue. -/
structure QueueItem where
  image : SourceImage
  settings : BatchSettings
deriving DecidableEq

/-- `batchProcessor.processImage` (`src/js/batchProcessor.js` lines
53-111): rejects a missing source image, validates every settings
object with the engine's validator (the legacy engine file defines the
loaded `validateSettings` and `generateWatermarkedImage`; the array
path calls `generateWatermarkedImageMultiple`, which only the
transform-based engine copy defines), then generates; any failure
is rethrown wrapped in `Failed to process <name>: …`.  Output-filename
generation and metadata packaging are omitted. -/
def processImage (measure : TextSettings → ℚ) (decode : ImageData → ImgElem)
    (sourceImage : SourceImage) (settings : BatchSettings) :
    Except String GeneratedImage :=
  match sourceImage.imageData with
  | none => Except.error ("Failed to process " ++ sourceImage.name ++ ": Invalid source image data")
  | some img =>
    match settings with
    | BatchSettings.single s =>
      if (validateSettings s).isValid then
        match generateWatermarkedImage measure img s with
        | Except.ok r => Except.ok r
        | Except.error e => Except.error ("Failed to process " ++ sourceImage.name ++ ": " ++ e)
      else
        Except.error ("Failed to process " ++ sourceImage.name ++ ": Invalid settings: " ++
          String.intercalate ", " (validateSettings s).errors)
    | BatchSettings.multiple l =>
      if l.isEmpty then
        Except.error ("Failed to process " ++ sourceImage.name ++ ": No watermark settings provided")
      else
        match l.find? (fun s => !(validateSettings s).isValid) with
        | some bad =>
          Except.error ("Failed to process " ++ sourceImage.name ++ ": Invalid settings: " ++
            String.intercalate ", " (validateSettings bad).errors)
        | none =>
          match generateWatermarkedImageMultiple decode img l with
          | Except.ok r => Except.ok r
          | Except.error e => Except.error ("Failed to process " ++ sourceImage.name ++ ": " ++ e)

/-- Outcome of a full queue run: successful results plus per-item
errors keyed by image name (the shapes pushed by the loop). -/
structure QueueOutcome where
  results : List GeneratedImage
  errors : List (String × String)
deriving DecidableEq

/-- The per-item loop of `batchProcessor.processQueue`
(`src/js/batchProcessor.js` lines 134-166): each item is processed
inside its own `try`/`catch`; a failure is recorded as a per-item
error and iteration continues.  `proc` is the `this.processImage`
call for one item (instantiated with `processImage` above); the
`shouldStop` flag (never set here), progress reporting, artificial
delay and timing are omitted. -/
def processQueue (proc : QueueItem → Except String GeneratedImage) :
    List QueueItem → QueueOutcome
  | [] => ⟨[], []⟩
  | item :: rest =>
    match proc item with
    | Except.ok r =>
      let o := processQueue proc rest
      ⟨r :: o.results, o.errors⟩
    | Except.error e =>
      let o := processQueue proc rest
      ⟨o.results, (item.image.name, e) :: o.errors⟩

/-- The unknown-type watermark used to refute C5. -/
def c5Bad : Settings := ⟨"bogus", none, none, none, none, none⟩

/-- A valid text watermark (color left unparsable so no contrast
stroke is attempted). -/
def c5Good : Settings :=
  { type := "text",
    text := some { content := "ok", font := "Arial", size := 20, color := "",
                   opacity := 80, rotation := 0 },
    image := none, position := some { preset := "center", x := 0, y := 0 },
    output := none, transform := none }

/-- C5 counterexample: in the multi-watermark pass, a failing first
watermark (unknown type) aborts the loop — the run over
`[c5Bad, c5Good]` errors, paints nothing, and equals the run over
`[c5Bad]` alone, even though `c5Good` renders fine by itself.  The
engine loop has no per-watermark catch, so the remaining watermarks of
the pass are *not* rendered. -/
theorem C5_counterexample :
    (applyWatermarks estimateTextWidthFallback {} [c5Bad, c5Good] ⟨0, 0, 800, 600⟩ 1).2.isSome
      = true ∧
    (applyWatermarks estimateTextWidthFallback {} [c5Bad, c5Good] ⟨0, 0, 800, 600⟩ 1).1.ops
      = [] ∧
    (applyWatermarks estimateTextWidthFallback {} [c5Bad, c5Good] ⟨0, 0, 800, 600⟩ 1)
      = applyWatermarks estimateTextWidthFallback {} [c5Bad] ⟨0, 0, 800, 600⟩ 1 ∧
    (applyWatermarks estimateTextWidthFallback {} [c5Good] ⟨0, 0, 800, 600⟩ 1).2 = none ∧
    (applyWatermarks estimateTextWidthFallback {} [c5Good] ⟨0, 0, 800, 600⟩ 1).1.ops ≠ [] := by
  refine ⟨by decide, by decide, by decide, by decide, by decide⟩

/-- C5 (amended): an error in one watermark's render aborts the rest
of that composite pass — the engine loop distributes over list
concatenation with error short-circuiting, so everything after the
first failing watermark is never rendered; the batch loop, in
contrast, isolates items — results and per-item errors of a
concatenated queue are the concatenations of the parts, so one failed
image never prevents the remaining images from being processed. -/
theorem C5_amended_compositor_aborts_batch_continues :
    (∀ (measure : TextSettings → ℚ) (ctx : Ctx) (l1 l2 : List Settings)
       (bounds : Bounds) (sf : ℚ),
      applyWatermarks measure ctx (l1 ++ l2) bounds sf =
        match applyWatermarks measure ctx l1 bounds sf with
        | (c, none) => applyWatermarks measure c l2 bounds sf
        | (c, some e) => (c, some e)) ∧
    (∀ (proc : QueueItem → Except String GeneratedImage) (q1 q2 : List QueueItem),
      processQueue proc (q1 ++ q2) =
        ⟨(processQueue proc q1).results ++ (processQueue proc q2).results,
         (processQueue proc q1).errors ++ (processQueue proc q2).errors⟩) := by
  constructor
  · intro measure ctx l1 l2 bounds sf
    induction l1 generalizing ctx with
    | nil => simp [applyWatermarks]
    | cons w rest ih =>
      simp only [List.cons_append, applyWatermarks]
      rcases hres : applyWatermark measure ctx w bounds sf with ⟨c, e⟩
      cases e with
      | none => simp [ih c]
      | some e => simp
  · intro proc q1 q2
    induction q1 with
    | nil => simp [processQueue]
    | cons item rest ih =>
      simp only [List.cons_append, processQueue]
      rcases hres : proc item with r | e <;> simp [ih]

/-- `restore` never touches the op log. -/
theorem Ctx.restore_ops (c : Ctx) : c.restore.ops = c.ops := by
  unfold Ctx.restore
  cases c.stack <;> rfl

/-- An image watermark whose `imageData` is absent is a silent no-op:
the legacy renderer returns the context untouched and no error. -/
theorem applyImageWatermark_noop (ctx : Ctx) (s : Settings) (bounds : Bounds) (sf : ℚ)
    (im : ImageSettings) (him : s.image = some im) (hdata : im.imageData = none) :
    applyImageWatermark ctx s bounds sf = (ctx, none) := by
  unfold applyImageWatermark
  simp [him, hdata]

/-- A text watermark with non-blank content renders successfully and
emits its centered `fillText`. -/
theorem applyTextWatermark_paints (measure : TextSettings → ℚ) (ctx : Ctx) (s : Settings)
    (bounds : Bounds) (sf : ℚ) (text : TextSettings) (ht : s.text = some text)
    (hnb : ¬(text.content = "" ∨ jsTrim text.content = "")) :
    (applyTextWatermark measure ctx s bounds sf).2 = none ∧
    ∃ st : PaintState,
      PaintOp.fillText text.content 0 0 st ∈ (applyTextWatermark measure ctx s bounds sf).1.ops := by
  unfold applyTextWatermark
  simp only [ht, hnb, if_false]
  split_ifs <;>
    · refine ⟨trivial, ?_⟩
      simp only [Ctx.save, Ctx.translate, Ctx.rotateDeg, Ctx.setFont, Ctx.setTextAlign,
        Ctx.setTextBaseline, Ctx.setGlobalAlpha, Ctx.setStrokeStyle, Ctx.setLineWidth,
        Ctx.strokeText, Ctx.setFillStyle, Ctx.fillText, Ctx.restore]
      exact ⟨_, List.mem_append_right _ (List.mem_singleton.mpr rfl)⟩

/-- C9: an image watermark whose `image.imageData` is absent returns
without painting anything and without raising (context returned
untouched, no error); and a `combined` watermark with missing image
data still renders its text layer — the render succeeds and the text's
`fillText` is among the emitted paint ops. -/
theorem C9_missing_image_data_noop :
    (∀ (ctx : Ctx) (s : Settings) (bounds : Bounds) (sf : ℚ) (im : ImageSettings),
      s.image = some im → im.imageData = none →
      applyImageWatermark ctx s bounds sf = (ctx, none)) ∧
    (∀ (measure : TextSettings → ℚ) (ctx : Ctx) (s : Settings) (bounds : Bounds) (sf : ℚ)
       (im : ImageSettings) (text : TextSettings),
      s.type = "combined" → s.image = some im → im.imageData = none →
      s.text = some text → ¬(text.content = "" ∨ jsTrim text.content = "") →
      (applyWatermark measure ctx s bounds sf).2 = none ∧
      ∃ st : PaintState,
        PaintOp.fillText text.content 0 0 st ∈ (applyWatermark measure ctx s bounds sf).1.ops) := by
  constructor
  · intro ctx s bounds sf im him hdata
    exact applyImageWatermark_noop ctx s bounds sf im him hdata
  · intro measure ctx s bounds sf im text htype him hdata ht hnb
    unfold applyWatermark
    simp +decide only [htype, if_true, if_false]
    obtain ⟨he, st, hmem⟩ := applyTextWatermark_paints measure ctx.save s bounds sf text ht hnb
    rcases hres : applyTextWatermark measure ctx.save s bounds sf with ⟨c2, e⟩
    rw [hres] at he hmem
    dsimp only at he hmem
    subst he
    simp only [hres, applyImageWatermark_noop c2 s bounds sf im him hdata]
    exact ⟨trivial, st, by rw [Ctx.restore_ops]; exact hmem⟩

/-- The concrete combined watermark of the C9 witness: text `"ok"`
with an image layer whose `imageData` is absent. -/
def c9Settings : Settings :=
  { type := "combined",
    text := some { content := "ok", font := "Arial", size := 20, color := "",
                   opacity := 80, rotation := 0 },
    image := some { imageData := none, scale := 100, opacity := 80, rotation := 0 },
    position := some { preset := "center", x := 0, y := 0 },
    output := none, transform := none }

/-- Witness for C9 at the concrete combined watermark with missing
image data: the image layer no-ops and the text layer still paints. -/
theorem C9_missing_image_data_noop_witness :
    applyImageWatermark {} c9Settings ⟨0, 0, 800, 600⟩ 1 = ({}, none) ∧
    ((applyWatermark estimateTextWidthFallback {} c9Settings ⟨0, 0, 800, 600⟩ 1).2 = none ∧
     ∃ st : PaintState,
       PaintOp.fillText "ok" 0 0 st ∈
         (applyWatermark estimateTextWidthFallback {} c9Settings ⟨0, 0, 800, 600⟩ 1).1.ops) :=
  ⟨C9_missing_image_data_noop.1 {} c9Settings ⟨0, 0, 800, 600⟩ 1
      { imageData := none, scale := 100, opacity := 80, rotation := 0 } rfl rfl,
   C9_missing_image_data_noop.2 estimateTextWidthFallback {} c9Settings ⟨0, 0, 800, 600⟩ 1
      { imageData := none, scale := 100, opacity := 80, rotation := 0 }
      { content := "ok", font := "Arial", size := 20, color := "", opacity := 80, rotation := 0 }
      rfl rfl rfl rfl (by decide)⟩

/-- `watermark.scaling` as captured at creation time
(`app.js createWatermark`, lines 107-151). -/
structure ScalingState where
  baseFontSize : Option ℚ
  baseWidth : ℚ
  baseHeight : ℚ
  aspectRatio : Option ℚ
  minFontSize : ℚ
  maxFontSize : ℚ
  fontScaleFactor : ℚ
  maintainAspectRatio : Bool
deriving DecidableEq

/-- The editing session's watermark entity
(`app.js createWatermark`): settings, geometric transform, stacking
index and scaling memory. -/
structure Watermark where
  id : ℤ
  settings : Settings
  transform : Transform
  zIndex : ℤ
  scaling : ScalingState
deriving DecidableEq

instance : DecidableRel (fun a b : Watermark => a.zIndex ≤ b.zIndex) :=
  fun a b => Int.decLe a.zIndex b.zIndex

instance : IsTotal Watermark (fun a b => a.zIndex ≤ b.zIndex) :=
  ⟨fun a b => Int.le_total a.zIndex b.zIndex⟩

instance : IsTrans Watermark (fun a b => a.zIndex ≤ b.zIndex) :=
  ⟨fun _ _ _ h1 h2 => le_trans h1 h2⟩

/-- The compositor's ordering step
(`app.js renderWatermarksOnCanvas`, line 1655, and
`getWatermarkSettingsFromTransform`, line 2023):
`[...this.watermarks].sort((a, b) => a.zIndex - b.zIndex)`.
JavaScript `Array.prototype.sort` is stable (ES2019), so the numeric
comparator is embedded as a stable insertion sort by `zIndex`. -/
def renderOrder (watermarks : List Watermark) : List Watermark :=
  List.insertionSort (fun a b : Watermark => a.zIndex ≤ b.zIndex) watermarks

/-- Fixed sample watermarks used to exercise the compositor order. -/
def sampleWm (i z : ℤ) : Watermark :=
  { id := i, settings := c5Good, transform := ⟨0, 0, 200, 60, 0, none⟩,
    zIndex := z,
    scaling := { baseFontSize := some 20, baseWidth := 200, baseHeight := 60,
                 aspectRatio := none, minFontSize := 8, maxFontSize := 200,
                 fontScaleFactor := 1, maintainAspectRatio := false } }

/-- C7: the compositor invokes renders in ascending `zIndex` order —
the sorted copy is ascending, is a permutation of the input, preserves
the relative order of equal-`zIndex` entries (stability: filtering any
one `zIndex` value returns them in input order, which for the session
array is insertion/creation order), and on zIndices `[3,1,2]` the
invocation order is `1, 2, 3` for either input arrangement, with ties
kept in array order. -/
theorem C7_compositor_z_order :
    (∀ l : List Watermark,
      List.Sorted (fun a b : Watermark => a.zIndex ≤ b.zIndex) (renderOrder l)) ∧
    (∀ l : List Watermark, List.Perm (renderOrder l) l) ∧
    (∀ (l : List Watermark) (z : ℤ),
      (renderOrder l).filter (fun w => w.zIndex == z) =
        l.filter (fun w => w.zIndex == z)) ∧
    renderOrder [sampleWm 10 3, sampleWm 11 1, sampleWm 12 2]
      = [sampleWm 11 1, sampleWm 12 2, sampleWm 10 3] ∧
    renderOrder [sampleWm 11 1, sampleWm 10 3, sampleWm 12 2]
      = [sampleWm 11 1, sampleWm 12 2, sampleWm 10 3] ∧
    renderOrder [sampleWm 21 5, sampleWm 20 5] = [sampleWm 21 5, sampleWm 20 5] := by
  refine ⟨?_, ?_, ?_, by decide, by decide, by decide⟩
  · intro l
    exact List.sorted_insertionSort _ l
  · intro l
    exact List.perm_insertionSort _ l
  · intro l z
    have hsub : List.Sublist (l.filter (fun w => w.zIndex == z)) l := List.filter_sublist l
    have hall : ∀ a ∈ l.filter (fun w => w.zIndex == z), a.zIndex = z := by
      intro a ha
      simpa using (List.mem_filter.mp ha).2
    have hpair : (l.filter (fun w => w.zIndex == z)).Pairwise
        (fun a b : Watermark => a.zIndex ≤ b.zIndex) := by
      apply List.pairwise_of_forall_mem_list
      intro a ha b hb
      rw [hall a ha, hall b hb]
    have h1 : List.Sublist (l.filter (fun w => w.zIndex == z)) (renderOrder l) :=
      List.sublist_insertionSort hpair hsub
    have h3 : List.Sublist
        ((l.filter (fun w => w.zIndex == z)).filter (fun w => w.zIndex == z))
        ((renderOrder l).filter (fun w => w.zIndex == z)) :=
      h1.filter (fun w => w.zIndex == z)
    have h4 : List.Sublist (l.filter (fun w => w.zIndex == z))
        ((renderOrder l).filter (fun w => w.zIndex == z)) := by
      simpa [List.filter_filter] using h3
    have h5 : List.Perm ((renderOrder l).filter (fun w => w.zIndex == z))
        (l.filter (fun w => w.zIndex == z)) :=
      (List.perm_insertionSort _ l).filter _
    exact (h4.eq_of_length h5.length_eq.symm).symm

/-- `calculateDynamicFontSize` (`app.js` lines 154-172).  The guard
`watermark.settings.type !== 'text' || !watermark.scaling.baseFontSize`
returns `watermark.settings.text.size`; JavaScript truthiness makes a
null *or zero* base font size take the guard, and the guard's own
`text.size` access (which would raise when `text` is absent) is
embedded with default 0 — unreachable for the text watermarks the
callers pass. -/
def calculateDynamicFontSize (watermark : Watermark) : ℚ :=
  if watermark.settings.type ≠ "text" ∨ watermark.scaling.baseFontSize.getD 0 = 0 then
    match watermark.settings.text with
    | some t => t.size
    | none => 0
  else
    let baseFontSize := watermark.scaling.baseFontSize.getD 0
    let widthScale := watermark.transform.width / watermark.scaling.baseWidth
    let heightScale := watermark.transform.height / watermark.scaling.baseHeight
    let scaleFactor := min widthScale heightScale
    let newFontSize := baseFontSize * scaleFactor
    max watermark.scaling.minFontSize (min watermark.scaling.maxFontSize newFontSize)

/-- The container-resize write-back of `updateWatermarkScaling`
(`app.js` lines 174-207): the new box size goes into the transform;
the recomputed font size goes into `settings.text.size`; the scaling
state's base values are never rebased. -/
def setContainer (w : Watermark) (width height : ℚ) : Watermark :=
  { w with transform := { w.transform with width := width, height := height } }

/-- The `watermark.settings.text.size = newFontSize` assignment. -/
def setTextSize (w : Watermark) (size : ℚ) : Watermark :=
  { w with settings :=
      { w.settings with text := w.settings.text.map (fun t => { t with size := size }) } }

/-- C8: for a text watermark with a live base font size, the rescaled
font size is exactly
`clamp(baseFontSize * min(width/baseWidth, height/baseHeight), 8, 200)`
(with the creation-time clamp bounds 8 and 200); re-running the scaler
after its own write-back (any `settings.text.size` write) returns the
same value, because only the creation-time scaling state is read —
idempotence; and the result is monotone in the container size. -/
theorem C8_dynamic_font_scaling (w : Watermark) (b : ℚ)
    (htype : w.settings.type = "text") (hbase : w.scaling.baseFontSize = some b)
    (hb : b ≠ 0) (hmin : w.scaling.minFontSize = 8) (hmax : w.scaling.maxFontSize = 200) :
    calculateDynamicFontSize w =
      max 8 (min 200 (b * min (w.transform.width / w.scaling.baseWidth)
        (w.transform.height / w.scaling.baseHeight))) ∧
    (∀ size : ℚ, calculateDynamicFontSize (setTextSize w size) = calculateDynamicFontSize w) ∧
    (∀ w1 h1 w2 h2 : ℚ, 0 < w.scaling.baseWidth → 0 < w.scaling.baseHeight → 0 ≤ b →
      w1 ≤ w2 → h1 ≤ h2 →
      calculateDynamicFontSize (setContainer w w1 h1)
        ≤ calculateDynamicFontSize (setContainer w w2 h2)) := by
  have hguard : ¬(w.settings.type ≠ "text" ∨ w.scaling.baseFontSize.getD 0 = 0) := by
    rw [htype, hbase]
    simp [hb]
  have hformula : ∀ w1 h1 : ℚ, calculateDynamicFontSize (setContainer w w1 h1) =
      max 8 (min 200 (b * min (w1 / w.scaling.baseWidth) (h1 / w.scaling.baseHeight))) := by
    intro w1 h1
    unfold calculateDynamicFontSize setContainer
    rw [if_neg (by simpa using hguard)]
    simp [hbase, hmin, hmax]
  refine ⟨?_, ?_, ?_⟩
  · unfold calculateDynamicFontSize
    rw [if_neg hguard]
    simp [hbase, hmin, hmax]
  · intro size
    unfold calculateDynamicFontSize setTextSize
    rw [if_neg (by simpa using hguard), if_neg hguard]
  · intro w1 h1 w2 h2 hbw hbh hbnn hw hh
    rw [hformula w1 h1, hformula w2 h2]
    gcongr

/-- Witness for C8 at a creation-time watermark (base font 20, clamp
[8,200], base box 200×60): the formula instance and monotonicity under
growing the container from 100×30 to 400×120. -/
theorem C8_dynamic_font_scaling_witness :
    calculateDynamicFontSize (sampleWm 1 1) =
      max 8 (min 200 (20 * min ((200 : ℚ) / 200) ((60 : ℚ) / 60))) ∧
    calculateDynamicFontSize (setContainer (sampleWm 1 1) 100 30)
      ≤ calculateDynamicFontSize (setContainer (sampleWm 1 1) 400 120) :=
  ⟨(C8_dynamic_font_scaling (sampleWm 1 1) 20 rfl rfl (by decide) rfl rfl).1,
   (C8_dynamic_font_scaling (sampleWm 1 1) 20 rfl rfl (by decide) rfl rfl).2.2
     100 30 400 120 (by decide) (by decide) (by decide) (by decide) (by decide)⟩

/-- C10: the single-settings full-resolution export maps every output
format other than `jpeg` — `webp` included — to `image/png` (only
`jpeg` yields `image/jpeg`), while the multi-watermark export maps the
first watermark's `webp` to `image/webp`; the two export paths
therefore encode the same `webp` output settings differently. -/
theorem C10_export_format_divergence :
    (∀ (measure : TextSettings → ℚ) (img : ImgElem) (s : Settings)
       (o : OutputSettings) (r : GeneratedImage),
      s.output = some o → o.format ≠ "jpeg" →
      generateWatermarkedImage measure img s = Except.ok r →
      r.format = "image/png") ∧
    (∀ (measure : TextSettings → ℚ) (img : ImgElem) (s : Settings)
       (o : OutputSettings) (r : GeneratedImage),
      s.output = some o → o.format = "jpeg" →
      generateWatermarkedImage measure img s = Except.ok r →
      r.format = "image/jpeg") ∧
    (∀ (decode : ImageData → ImgElem) (img : ImgElem) (first : Settings)
       (rest : List Settings) (o : OutputSettings) (r : GeneratedImage),
      first.output = some o → o.format = "webp" →
      generateWatermarkedImageMultiple decode img (first :: rest) = Except.ok r →
      r.format = "image/webp") := by
  refine ⟨?_, ?_, ?_⟩
  · intro measure img s o r hout hfmt hgen
    unfold generateWatermarkedImage at hgen
    dsimp only at hgen
    rcases hres : applyWatermark measure (Ctx.drawImage {} 0 0 img.width img.height)
        s ⟨0, 0, img.width, img.height⟩ 1 with ⟨c, e⟩
    simp only [hres] at hgen
    cases e with
    | some e => simp at hgen
    | none =>
      simp only [hout] at hgen
      rw [if_neg hfmt] at hgen
      cases hgen
      rfl
  · intro measure img s o r hout hfmt hgen
    unfold generateWatermarkedImage at hgen
    dsimp only at hgen
    rcases hres : applyWatermark measure (Ctx.drawImage {} 0 0 img.width img.height)
        s ⟨0, 0, img.width, img.height⟩ 1 with ⟨c, e⟩
    simp only [hres] at hgen
    cases e with
    | some e => simp at hgen
    | none =>
      simp only [hout] at hgen
      rw [if_pos hfmt] at hgen
      cases hgen
      rfl
  · intro decode img first rest o r hout hfmt hgen
    unfold generateWatermarkedImageMultiple at hgen
    dsimp only at hgen
    rcases hres : applyWatermarksT decode (Ctx.drawImage {} 0 0 img.width img.height)
        (first :: rest) ⟨0, 0, img.width, img.height⟩ 1 with ⟨c, e⟩
    simp only [hres] at hgen
    cases e with
    | some e => simp at hgen
    | none =>
      simp only [List.head?, hout, hfmt] at hgen
      simp +decide only [if_false, if_true] at hgen
      cases hgen
      rfl

/-- A fixed host decoder for witness runs: every stored image decodes
to a 100×50 raster. -/
def decodeFixed : ImageData → ImgElem := fun _ => ⟨100, 50⟩

/-- The single-export witness settings: a valid text watermark whose
output format is `webp`. -/
def c10Single : Settings :=
  { type := "text",
    text := some { content := "ok", font := "Arial", size := 20, color := "",
                   opacity := 80, rotation := 0 },
    image := none, position := some { preset := "center", x := 0, y := 0 },
    output := some { format := "webp", quality := 95 }, transform := none }

/-- The multi-export witness settings: same watermark carrying a
transform box. -/
def c10Multi : Settings :=
  { c10Single with transform := some ⟨10, 10, 100, 40, 0, none⟩ }

/-- Witness for C10: on an 800×600 source with `webp` requested, the
single-settings export returns `image/png` while the multi-watermark
export returns `image/webp`. -/
theorem C10_export_format_divergence_witness :
    (∃ r : GeneratedImage,
      generateWatermarkedImage estimateTextWidthFallback ⟨800, 600⟩ c10Single = Except.ok r ∧
      r.format = "image/png") ∧
    (∃ r : GeneratedImage,
      generateWatermarkedImageMultiple decodeFixed ⟨800, 600⟩ [c10Multi] = Except.ok r ∧
      r.format = "image/webp") := by
  constructor
  · have hsome : (generateWatermarkedImage estimateTextWidthFallback
        ⟨800, 600⟩ c10Single).toOption.isSome = true := by decide
    rcases hgen : generateWatermarkedImage estimateTextWidthFallback ⟨800, 600⟩ c10Single
        with e | r
    · rw [hgen] at hsome
      simp [Except.toOption] at hsome
    · exact ⟨r, rfl, C10_export_format_divergence.1 estimateTextWidthFallback ⟨800, 600⟩
        c10Single ⟨"webp", 95⟩ r rfl (by decide) hgen⟩
  · have hsome : (generateWatermarkedImageMultiple decodeFixed
        ⟨800, 600⟩ [c10Multi]).toOption.isSome = true := by decide
    rcases hgen : generateWatermarkedImageMultiple decodeFixed ⟨800, 600⟩ [c10Multi]
        with e | r
    · rw [hgen] at hsome
      simp [Except.toOption] at hsome
    · exact ⟨r, rfl, C10_export_format_divergence.2.2 decodeFixed ⟨800, 600⟩
        c10Multi [] ⟨"webp", 95⟩ r rfl rfl hgen⟩
